import Mathlib

/-!
Verification of the Nitro Type "Top Team Requirements Table" userscript
(src/show-top-team-requirements-table.js).

The script fetches team stats and two leaderboard snapshots from the
NitroType API (caching each in localStorage with a 20-minute freshness
window), computes per-milestone daily member race requirements for both
the weekly and the season leaderboards, and renders a two-mode toggle
widget on the team page.

The embedding below mirrors the source:
* JavaScript numbers that only ever hold integers are modelled as Nat/Int;
  exact divisions followed by Math.ceil are modelled over the rationals.
* localStorage cells are modelled by the Stored type: a cell is absent,
  holds unparseable text, or holds a well-formed timestamped entry.
* Fallible operations (fetches that can throw) return Except, together
  with the updated cache cell and the number of network requests issued.
* DOM state touched by the toggle handlers (button class lists, the table
  body rows, the footer text) is modelled as an explicit record that each
  click handler transforms.
-/

namespace NitroType

/-- Projection of a leaderboard entry kept by the userscript entry point
(lines 210-219 of the source): only the played race count and the points. -/
structure Score where
  played : Nat
  points : Nat
deriving Repr, DecidableEq

/-- A raw leaderboard entry as returned inside results.scores by the API.
Besides played and points it carries further fields (team name, tag, ...);
two stand-in fields represent those, and the projection discards them. -/
structure RawScore where
  played : Nat
  points : Nat
  tag : String
  otherField : Nat
deriving Repr, DecidableEq

/-- One milestone row after the requirement loops have run: the copied
played/points pair plus the computed dailyMemberRaces value. -/
structure TopRequirement where
  played : Nat
  points : Nat
  dailyMemberRaces : Int
deriving Repr, DecidableEq

/-- The weeklyTopInfo / seasonTopInfo record of the source (lines 225-238):
milestone ranks 1, 3, 10, 50, 100 taken from indices 0, 2, 9, 49, 99. -/
structure TopRequirements where
  top1 : TopRequirement
  top3 : TopRequirement
  top10 : TopRequirement
  top50 : TopRequirement
  top100 : TopRequirement
deriving Repr, DecidableEq

/-- Math.ceil on an exact rational value. -/
def mathCeil (x : ℚ) : Int := ⌈x⌉

/-- Weekly requirement for one milestone entry (lines 241-245):
dailyMemberRaces = Math.ceil(value.played / 7 / memberCount). -/
def weeklyRequirementOf (memberCount : Nat) (s : Score) : TopRequirement :=
  { played := s.played
    points := s.points
    dailyMemberRaces := mathCeil ((s.played : ℚ) / 7 / memberCount) }

/-- Season requirement for one milestone entry (lines 248-252):
dailyMemberRaces = Math.ceil((value.played - seasonRaces) / memberCount). -/
def seasonRequirementOf (memberCount seasonRaces : Nat) (s : Score) : TopRequirement :=
  { played := s.played
    points := s.points
    dailyMemberRaces := mathCeil (((s.played : ℚ) - (seasonRaces : ℚ)) / memberCount) }

/-- The weekly milestone selection and requirement loop (lines 225-231 and
241-245).  The source indexes the leaderboard array at 0, 2, 9, 49, 99 and
then dereferences each selected value in that key order; when an index is
out of range the selected value is undefined and the loop throws, which the
embedding renders as none. -/
def weeklyTopInfo? (lb : List Score) (memberCount : Nat) : Option TopRequirements :=
  match lb[0]?, lb[2]?, lb[9]?, lb[49]?, lb[99]? with
  | some a, some b, some c, some d, some e =>
      some { top1 := weeklyRequirementOf memberCount a
             top3 := weeklyRequirementOf memberCount b
             top10 := weeklyRequirementOf memberCount c
             top50 := weeklyRequirementOf memberCount d
             top100 := weeklyRequirementOf memberCount e }
  | _, _, _, _, _ => none

/-- The season milestone selection and requirement loop (lines 232-238 and
248-252), analogous to the weekly one. -/
def seasonTopInfo? (lb : List Score) (memberCount seasonRaces : Nat) :
    Option TopRequirements :=
  match lb[0]?, lb[2]?, lb[9]?, lb[49]?, lb[99]? with
  | some a, some b, some c, some d, some e =>
      some { top1 := seasonRequirementOf memberCount seasonRaces a
             top3 := seasonRequirementOf memberCount seasonRaces b
             top10 := seasonRequirementOf memberCount seasonRaces c
             top50 := seasonRequirementOf memberCount seasonRaces d
             top100 := seasonRequirementOf memberCount seasonRaces e }
  | _, _, _, _, _ => none

/-- A timestamped cache record as written to localStorage by every
successful fetch: the payload together with Date.now() at write time
(epoch milliseconds, modelled as Int). -/
structure CacheEntry (α : Type) where
  data : α
  timestamp : Int
deriving Repr, DecidableEq

/-- State of one localStorage cell as seen through
JSON.parse(localStorage.getItem(key)): the cell may be absent
(getItem returns null, which parses to null), hold text that JSON.parse
cannot parse (JSON.parse throws), or hold a well-formed entry. -/
inductive Stored (α : Type) where
  | absent
  | malformed
  | entry (e : CacheEntry α)
deriving Repr, DecidableEq

/-- A network response: the ok flag, the HTTP status, and the JSON body. -/
structure Response (α : Type) where
  ok : Bool
  status : Nat
  body : α
deriving Repr, DecidableEq

/-- Errors a fetch operation can throw: a non-success HTTP status
("Failed to fetch ...: status", lines 32-34), or the SyntaxError raised by
JSON.parse on malformed cached text (line 21), which the catch block logs
and rethrows (lines 46-49). -/
inductive FetchErr where
  | fetchError (status : Nat)
  | parseError
deriving Repr, DecidableEq

instance exceptDecEq {ε α : Type} [DecidableEq ε] [DecidableEq α] :
    DecidableEq (Except ε α) := fun a b =>
  match a, b with
  | .ok x, .ok y =>
      if h : x = y then .isTrue (by rw [h]) else .isFalse (by intro hc; cases hc; exact h rfl)
  | .ok _, .error _ => .isFalse (by intro hc; cases hc)
  | .error _, .ok _ => .isFalse (by intro hc; cases hc)
  | .error x, .error y =>
      if h : x = y then .isTrue (by rw [h]) else .isFalse (by intro hc; cases hc; exact h rfl)

/-- Result of one fetch operation: the value returned or the error thrown,
the state of the operation's localStorage cell afterwards, and how many
network requests were issued. -/
structure FetchOutcome (α : Type) where
  result : Except FetchErr α
  newStored : Stored α
  requests : Nat
deriving Repr, DecidableEq

/-- Cached entries younger than 20 minutes (in milliseconds) are served
without a fetch (lines 22, 64, 112). -/
def freshnessWindow : Int := 20 * 60 * 1000

/-- Shared shape of the three fetch operations (fetchTeamStats,
getWeeklyLeaderBoardInfoStats, getSeasonLeaderBoardInfoStats, lines 19-146):
parse the stored cell (throwing on malformed text); serve the cached payload
if it is less than 20 minutes old; otherwise issue one network request,
throw on a non-success status, and on success write the body back to the
cell stamped with the current time before returning it. -/
def fetchCached {α : Type} (stored : Stored α) (now : Int) (resp : Response α) :
    FetchOutcome α :=
  match stored with
  | .malformed => { result := .error .parseError, newStored := .malformed, requests := 0 }
  | .absent =>
      if resp.ok then
        { result := .ok resp.body
          newStored := .entry { data := resp.body, timestamp := now }
          requests := 1 }
      else
        { result := .error (.fetchError resp.status), newStored := .absent, requests := 1 }
  | .entry e =>
      if now - e.timestamp < freshnessWindow then
        { result := .ok e.data, newStored := .entry e, requests := 0 }
      else if resp.ok then
        { result := .ok resp.body
          newStored := .entry { data := resp.body, timestamp := now }
          requests := 1 }
      else
        { result := .error (.fetchError resp.status), newStored := .entry e, requests := 1 }

/-- One stat record inside results.stats of the team payload. -/
structure BoardStat where
  board : String
  played : Nat
deriving Repr, DecidableEq

/-- The info part of the team payload, exposing the member count. -/
structure TeamInfo where
  members : Nat
deriving Repr, DecidableEq

/-- The results part of the team payload. -/
structure TeamResults where
  info : TeamInfo
  stats : List BoardStat
deriving Repr, DecidableEq

/-- The team payload returned by the team stats endpoint. -/
structure TeamPayload where
  results : TeamResults
deriving Repr, DecidableEq

/-- The team stats fetch operation (lines 19-50), instantiated at the team
payload shape. -/
def fetchTeamStats (stored : Stored TeamPayload) (now : Int)
    (resp : Response TeamPayload) : FetchOutcome TeamPayload :=
  fetchCached stored now resp

/-- The weekly leaderboard fetch operation (lines 105-146); its payload is
the raw results.scores array. -/
def getWeeklyLeaderBoardInfoStats (stored : Stored (List RawScore)) (now : Int)
    (resp : Response (List RawScore)) : FetchOutcome (List RawScore) :=
  fetchCached stored now resp

/-- The season leaderboard fetch operation (lines 57-98); its payload is
the raw results.scores array. -/
def getSeasonLeaderBoardInfoStats (stored : Stored (List RawScore)) (now : Int)
    (resp : Response (List RawScore)) : FetchOutcome (List RawScore) :=
  fetchCached stored now resp

/-- Whether the freshness check fails, so the operation proceeds to the
network (the else branches at lines 25, 68, 116).  A malformed cell is not
a miss: JSON.parse throws before the check. -/
def isCacheMiss {α : Type} (stored : Stored α) (now : Int) : Bool :=
  match stored with
  | .absent => true
  | .malformed => false
  | .entry e => !(now - e.timestamp < freshnessWindow : Bool)

/-- The top-level recovery of team variables (lines 196-204): on success
memberCount is results.info.members and seasonRaces is the played count of
the stats record whose board is "season" (if any); when fetchTeamStats
throws, the error is logged and both variables stay undefined. -/
def teamVars (r : Except FetchErr TeamPayload) : Option Nat × Option Nat :=
  match r with
  | .ok p =>
      (some p.results.info.members,
       (p.results.stats.find? (fun stat => stat.board == "season")).map
         (fun stat => stat.played))
  | .error _ => (none, none)

/-- The projection applied to each fetched leaderboard (lines 210-219):
map each raw score to its played/points pair, discarding all other fields. -/
def projectScores (scores : List RawScore) : List Score :=
  scores.map (fun r => { played := r.played, points := r.points })

/-- A leaderboard fetch as the spec's fetchLeaderboard operation: the cached
fetch of the raw scores composed with the entry-point projection.  Both
periods run exactly this computation on their own cell and endpoint. -/
def fetchLeaderboard (stored : Stored (List RawScore)) (now : Int)
    (resp : Response (List RawScore)) : Except FetchErr (List Score) :=
  (fetchCached stored now resp).result.map projectScores

/-- Rendered content of one table row produced by
createTopTeamRequirementsTableBody (lines 266-308): the place label (the
key with its "top" prefix removed) and the three numeric cells. -/
structure TableRow where
  place : String
  races : Nat
  points : Nat
  dailyMemberRaces : Int
deriving Repr, DecidableEq

/-- One row of the requirements table body for a key/value pair of topInfo.
The source computes the place label as key.replace("top", ""); on the five
literal keys "top1" ... "top100" this removes exactly the three-character
"top" prefix, modelled here as dropping those three characters. -/
def rowOf (key : String) (v : TopRequirement) : TableRow :=
  { place := key.drop 3
    races := v.played
    points := v.points
    dailyMemberRaces := v.dailyMemberRaces }

/-- Rendered content of the table body built by
createTopTeamRequirementsTableBody (lines 259-312): one row per entry of
the topInfo record, in the record's insertion order. -/
def createTopTeamRequirementsTableBody (topInfo : TopRequirements) : List TableRow :=
  [rowOf "top1" topInfo.top1,
   rowOf "top3" topInfo.top3,
   rowOf "top10" topInfo.top10,
   rowOf "top50" topInfo.top50,
   rowOf "top100" topInfo.top100]

/-- Class-list state of one toggle button: whether it carries the inactive
style class (link--h) and the active style class (link--i). -/
structure ButtonState where
  linkH : Bool
  linkI : Bool
deriving Repr, DecidableEq

/-- What each click handler does to a button's class list
(classList.toggle of link--h followed by classList.toggle of link--i,
lines 359-362 and 391-394). -/
def toggleClasses (b : ButtonState) : ButtonState :=
  { linkH := !b.linkH, linkI := !b.linkI }

/-- DOM state the toggle handlers read and write: the class lists of the
two buttons, the rendered table body rows, and the footer text. -/
structure TooltipState where
  weeklyButton : ButtonState
  seasonButton : ButtonState
  tableBody : List TableRow
  footer : String
deriving Repr, DecidableEq

/-- Footer text written by the weekly handler (line 416) and at initial
render (line 486). -/
def weeklyFooterText (memberCount : Nat) : String :=
  "* Calculated for " ++ toString memberCount ++ " members."

/-- Footer text written by the season handler (line 384). -/
def seasonFooterText (memberCount seasonRaces : Nat) : String :=
  "* Calculated for " ++ toString memberCount ++ " members and " ++
    toString seasonRaces ++ " season races."

/-- The season button's click handler (lines 357-386): unconditionally
toggle both class pairs, replace the table body with the season rows, and
rewrite the footer. -/
def seasonClick (seasonTopInfo : TopRequirements) (memberCount seasonRaces : Nat)
    (st : TooltipState) : TooltipState :=
  { weeklyButton := toggleClasses st.weeklyButton
    seasonButton := toggleClasses st.seasonButton
    tableBody := createTopTeamRequirementsTableBody seasonTopInfo
    footer := seasonFooterText memberCount seasonRaces }

/-- The weekly button's click handler (lines 389-418): unconditionally
toggle both class pairs, replace the table body with the weekly rows, and
rewrite the footer. -/
def weeklyClick (weeklyTopInfo : TopRequirements) (memberCount : Nat)
    (st : TooltipState) : TooltipState :=
  { weeklyButton := toggleClasses st.weeklyButton
    seasonButton := toggleClasses st.seasonButton
    tableBody := createTopTeamRequirementsTableBody weeklyTopInfo
    footer := weeklyFooterText memberCount }

/-- Widget construction after the leaderboards have been projected: both
milestone calculations must complete (lines 225-252), after which the
widget renders the weekly rows initially (lines 503-516, 527).  When a
milestone index is missing the construction throws before any rendering,
which the embedding renders as none. -/
def buildWidget? (weeklyLb seasonLb : List Score) (memberCount seasonRaces : Nat) :
    Option (List TableRow × TopRequirements × TopRequirements) :=
  match weeklyTopInfo? weeklyLb memberCount with
  | none => none
  | some wInfo =>
      match seasonTopInfo? seasonLb memberCount seasonRaces with
      | none => none
      | some sInfo =>
          some (createTopTeamRequirementsTableBody wInfo, wInfo, sInfo)

/-- Inputs of one run of the userscript entry point (lines 183-533): the
viewer's team tag from the persisted session, the tag from the page URL,
the three cache cells, the clock, the response each endpoint would give,
and whether the page anchors for insertion are present. -/
structure Env where
  userTag : String
  pageTag : String
  teamStored : Stored TeamPayload
  weeklyStored : Stored (List RawScore)
  seasonStored : Stored (List RawScore)
  now : Int
  teamResp : Response TeamPayload
  weeklyResp : Response (List RawScore)
  seasonResp : Response (List RawScore)
  anchorsPresent : Bool

/-- Observable outcome of one run: the three cache cells afterwards, the
total number of network requests issued, and whether the widget subtree
was inserted into the page. -/
structure ScriptResult where
  teamStored : Stored TeamPayload
  weeklyStored : Stored (List RawScore)
  seasonStored : Stored (List RawScore)
  fetches : Nat
  inserted : Bool
deriving Repr, DecidableEq

/-- The userscript entry point (lines 183-533).  If the session's team tag
differs from the page tag the function returns before doing anything
(lines 190-193).  Otherwise: fetch team stats (failure is caught and both
variables stay undefined); fetch and project the weekly then the season
leaderboard inside one try block (a weekly failure skips the season fetch,
and on any failure the later dereference of the undefined leaderboard
throws, so nothing is inserted); run both milestone calculations — an
undefined member count or season race count yields non-finite cell values
but does not abort, so completion depends only on the milestone entries —
and insert the widget when both anchors are present. -/
def runScript (env : Env) : ScriptResult :=
  if env.userTag = env.pageTag then
    let tOut := fetchTeamStats env.teamStored env.now env.teamResp
    let vars := teamVars tOut.result
    let wOut := getWeeklyLeaderBoardInfoStats env.weeklyStored env.now env.weeklyResp
    match wOut.result with
    | .error _ =>
        { teamStored := tOut.newStored
          weeklyStored := wOut.newStored
          seasonStored := env.seasonStored
          fetches := tOut.requests + wOut.requests
          inserted := false }
    | .ok wRaw =>
        let sOut := getSeasonLeaderBoardInfoStats env.seasonStored env.now env.seasonResp
        match sOut.result with
        | .error _ =>
            { teamStored := tOut.newStored
              weeklyStored := wOut.newStored
              seasonStored := sOut.newStored
              fetches := tOut.requests + wOut.requests + sOut.requests
              inserted := false }
        | .ok sRaw =>
            match buildWidget? (projectScores wRaw) (projectScores sRaw)
                (vars.1.getD 0) (vars.2.getD 0) with
            | some _ =>
                { teamStored := tOut.newStored
                  weeklyStored := wOut.newStored
                  seasonStored := sOut.newStored
                  fetches := tOut.requests + wOut.requests + sOut.requests
                  inserted := env.anchorsPresent }
            | none =>
                { teamStored := tOut.newStored
                  weeklyStored := wOut.newStored
                  seasonStored := sOut.newStored
                  fetches := tOut.requests + wOut.requests + sOut.requests
                  inserted := false }
  else
    { teamStored := env.teamStored
      weeklyStored := env.weeklyStored
      seasonStored := env.seasonStored
      fetches := 0
      inserted := false }

/-- Sample weekly requirement set used for concrete instantiations. -/
def sampleWeeklyInfo : TopRequirements :=
  ⟨⟨700, 50000, 10⟩, ⟨600, 40000, 9⟩, ⟨500, 30000, 8⟩, ⟨400, 20000, 6⟩, ⟨300, 10000, 5⟩⟩

/-- Sample season requirement set used for concrete instantiations. -/
def sampleSeasonInfo : TopRequirements :=
  ⟨⟨5000, 90000, 80⟩, ⟨4000, 80000, 40⟩, ⟨3000, 70000, 0⟩, ⟨2000, 60000, -40⟩,
   ⟨1000, 50000, -80⟩⟩

/-- Sample tooltip DOM state: weekly mode rendered and active. -/
def sampleTooltip : TooltipState :=
  { weeklyButton := { linkH := false, linkI := true }
    seasonButton := { linkH := true, linkI := false }
    tableBody := createTopTeamRequirementsTableBody sampleWeeklyInfo
    footer := weeklyFooterText 10 }

/-! Helper lemmas. -/

/-- Toggling both class pairs twice restores a button's class state. -/
theorem toggleClasses_involutive (b : ButtonState) :
    toggleClasses (toggleClasses b) = b := by
  cases b
  simp [toggleClasses]

/-- Getting an in-range index succeeds and agrees with getD. -/
theorem getD_of_lt {α : Type} (l : List α) (i : Nat) (d : α) (h : i < l.length) :
    l[i]? = some (l.getD i d) := by
  rw [List.getD_eq_getElem?_getD, List.getElem?_eq_getElem h]
  rfl

/-- Ceiling bounds for a division by a positive rational: the ceiling of
a / q is the least integer z with a ≤ q * z. -/
theorem ceil_div_bounds (a q : ℚ) (hq : 0 < q) :
    q * ((⌈a / q⌉ : ℚ) - 1) < a ∧ a ≤ q * (⌈a / q⌉ : ℚ) := by
  constructor
  · have h2 := Int.ceil_lt_add_one (a / q)
    have h3 : ((⌈a / q⌉ : ℚ) - 1) * q < a := by
      rw [← lt_div_iff₀ hq]
      linarith
    have h4 := mul_comm q ((⌈a / q⌉ : ℚ) - 1)
    linarith
  · have h1 := Int.le_ceil (a / q)
    have h4 : a ≤ (⌈a / q⌉ : ℚ) * q := by
      rw [← div_le_iff₀ hq]
      exact h1
    have h5 := mul_comm q ((⌈a / q⌉ : ℚ))
    linarith

/-- Integer bounds pinning down the weekly requirement value as the exact
ceiling of played / (7 * memberCount), divisible or not. -/
theorem weekly_bounds (p m : Nat) (hm : 0 < m) :
    7 * (m : Int) * (mathCeil ((p : ℚ) / 7 / m) - 1) < (p : Int) ∧
    (p : Int) ≤ 7 * m * mathCeil ((p : ℚ) / 7 / m) := by
  have hm' : (0 : ℚ) < (m : ℚ) := by exact_mod_cast hm
  have hq : (0 : ℚ) < 7 * (m : ℚ) := by linarith
  have hb := ceil_div_bounds (p : ℚ) (7 * (m : ℚ)) hq
  rw [← div_div] at hb
  unfold mathCeil
  constructor
  · exact_mod_cast hb.1
  · exact_mod_cast hb.2

/-- Integer bounds pinning down the season requirement value as the exact
ceiling of (played - seasonRaces) / memberCount. -/
theorem season_bounds (p r m : Nat) (hm : 0 < m) :
    (m : Int) * (mathCeil (((p : ℚ) - r) / m) - 1) < (p : Int) - r ∧
    (p : Int) - r ≤ m * mathCeil (((p : ℚ) - r) / m) := by
  have hm' : (0 : ℚ) < (m : ℚ) := by exact_mod_cast hm
  have hb := ceil_div_bounds ((p : ℚ) - r) (m : ℚ) hm'
  unfold mathCeil
  constructor
  · exact_mod_cast hb.1
  · exact_mod_cast hb.2

/-- When the team's season race count reaches the milestone's played count,
the ceiling of the nonpositive gap is nonpositive. -/
theorem season_nonpos (p r m : Nat) (h : p ≤ r) :
    mathCeil (((p : ℚ) - r) / m) ≤ 0 := by
  unfold mathCeil
  have h1 : (p : ℚ) - r ≤ 0 := by
    have : (p : ℚ) ≤ r := by exact_mod_cast h
    linarith
  have h2 : (0 : ℚ) ≤ (m : ℚ) := by positivity
  have h3 : ((p : ℚ) - r) / m ≤ 0 := div_nonpos_iff.mpr (Or.inr ⟨h1, h2⟩)
  exact_mod_cast Int.ceil_le.mpr (by exact_mod_cast h3)

/-! Claims. -/

/-- C1: For every leaderboard sequence of length at least 100 and every
positive member count, the weekly-mode dailyMemberRaces computed for each
of the five milestones (ranks 1, 3, 10, 50, 100 taken from indices 0, 2,
9, 49, 99) equals ceil(racesPlayed / 7 / memberCount) exactly; the integer
bounds witness exactness also when racesPlayed is not divisible by
7 * memberCount. -/
theorem weekly_dailyMemberRaces_eq_ceil (lb : List Score) (m : Nat)
    (hlen : 100 ≤ lb.length) (hm : 0 < m) :
    ∃ info, weeklyTopInfo? lb m = some info ∧
      ∀ p ∈ [(0, info.top1), (2, info.top3), (9, info.top10),
             (49, info.top50), (99, info.top100)],
        p.2.played = (lb.getD p.1 ⟨0, 0⟩).played ∧
        p.2.dailyMemberRaces = ⌈((lb.getD p.1 ⟨0, 0⟩).played : ℚ) / 7 / m⌉ ∧
        7 * (m : Int) * (p.2.dailyMemberRaces - 1) < ((lb.getD p.1 ⟨0, 0⟩).played : Int) ∧
        ((lb.getD p.1 ⟨0, 0⟩).played : Int) ≤ 7 * m * p.2.dailyMemberRaces := by
  have h0 := getD_of_lt lb 0 ⟨0, 0⟩ (by omega)
  have h2 := getD_of_lt lb 2 ⟨0, 0⟩ (by omega)
  have h9 := getD_of_lt lb 9 ⟨0, 0⟩ (by omega)
  have h49 := getD_of_lt lb 49 ⟨0, 0⟩ (by omega)
  have h99 := getD_of_lt lb 99 ⟨0, 0⟩ (by omega)
  have hinfo : weeklyTopInfo? lb m = some
      { top1 := weeklyRequirementOf m (lb.getD 0 ⟨0, 0⟩)
        top3 := weeklyRequirementOf m (lb.getD 2 ⟨0, 0⟩)
        top10 := weeklyRequirementOf m (lb.getD 9 ⟨0, 0⟩)
        top50 := weeklyRequirementOf m (lb.getD 49 ⟨0, 0⟩)
        top100 := weeklyRequirementOf m (lb.getD 99 ⟨0, 0⟩) } := by
    unfold weeklyTopInfo?
    rw [h0, h2, h9, h49, h99]
  refine ⟨_, hinfo, ?_⟩
  intro p hp
  simp only [List.mem_cons, List.not_mem_nil, or_false] at hp
  rcases hp with rfl | rfl | rfl | rfl | rfl <;>
    exact ⟨rfl, rfl, (weekly_bounds _ m hm).1, (weekly_bounds _ m hm).2⟩

/-- Witness for C1 at the spec's end-to-end example: 100 identical entries
with 700 races played and 10 members give a rank-1 weekly requirement of
ceil(700 / 7 / 10) = 10. -/
theorem weekly_dailyMemberRaces_eq_ceil_witness :
    ∃ info, weeklyTopInfo? (List.replicate 100 ⟨700, 50000⟩) 10 = some info ∧
      info.top1.dailyMemberRaces = 10 := by
  obtain ⟨info, hi, hall⟩ :=
    weekly_dailyMemberRaces_eq_ceil (List.replicate 100 ⟨700, 50000⟩) 10
      (by decide) (by decide)
  refine ⟨info, hi, ?_⟩
  have h := (hall (0, info.top1) (by simp)).2.1
  have hgd : (List.replicate 100 (⟨700, 50000⟩ : Score)).getD 0 ⟨0, 0⟩ = ⟨700, 50000⟩ := by
    decide
  rw [h, hgd]
  norm_num

/-- C2 counterexample: with 100 leaderboard entries all showing 0 races
played, seasonRacesPlayed = 1 exceeding racesPlayed = 0, and
memberCount = 2, the season dailyMemberRaces is ceil(-1/2) = 0 — not a
negative number as the claim states. -/
theorem season_dailyMemberRaces_not_negative :
    (seasonTopInfo? (List.replicate 100 ⟨0, 0⟩) 2 1).map
      (fun i => i.top1.dailyMemberRaces) = some 0 := by
  simp [seasonTopInfo?, seasonRequirementOf, mathCeil, List.getElem?_replicate]
  norm_num

/-- C2 (amended): For every leaderboard sequence of length at least 100,
every positive member count and every non-negative seasonRacesPlayed, the
season-mode dailyMemberRaces at each milestone equals
ceil((racesPlayed - seasonRacesPlayed) / memberCount), passed through
unmodified with the ceiling's rounding toward zero on negative values; when
seasonRacesPlayed reaches or exceeds racesPlayed the result is nonpositive
(zero whenever the deficit is smaller than memberCount). -/
theorem season_dailyMemberRaces_eq_ceil (lb : List Score) (m r : Nat)
    (hlen : 100 ≤ lb.length) (hm : 0 < m) :
    ∃ info, seasonTopInfo? lb m r = some info ∧
      ∀ p ∈ [(0, info.top1), (2, info.top3), (9, info.top10),
             (49, info.top50), (99, info.top100)],
        p.2.played = (lb.getD p.1 ⟨0, 0⟩).played ∧
        p.2.dailyMemberRaces = ⌈(((lb.getD p.1 ⟨0, 0⟩).played : ℚ) - r) / m⌉ ∧
        (m : Int) * (p.2.dailyMemberRaces - 1) < ((lb.getD p.1 ⟨0, 0⟩).played : Int) - r ∧
        ((lb.getD p.1 ⟨0, 0⟩).played : Int) - r ≤ m * p.2.dailyMemberRaces ∧
        ((lb.getD p.1 ⟨0, 0⟩).played ≤ r → p.2.dailyMemberRaces ≤ 0) := by
  have h0 := getD_of_lt lb 0 ⟨0, 0⟩ (by omega)
  have h2 := getD_of_lt lb 2 ⟨0, 0⟩ (by omega)
  have h9 := getD_of_lt lb 9 ⟨0, 0⟩ (by omega)
  have h49 := getD_of_lt lb 49 ⟨0, 0⟩ (by omega)
  have h99 := getD_of_lt lb 99 ⟨0, 0⟩ (by omega)
  have hinfo : seasonTopInfo? lb m r = some
      { top1 := seasonRequirementOf m r (lb.getD 0 ⟨0, 0⟩)
        top3 := seasonRequirementOf m r (lb.getD 2 ⟨0, 0⟩)
        top10 := seasonRequirementOf m r (lb.getD 9 ⟨0, 0⟩)
        top50 := seasonRequirementOf m r (lb.getD 49 ⟨0, 0⟩)
        top100 := seasonRequirementOf m r (lb.getD 99 ⟨0, 0⟩) } := by
    unfold seasonTopInfo?
    rw [h0, h2, h9, h49, h99]
  refine ⟨_, hinfo, ?_⟩
  intro p hp
  simp only [List.mem_cons, List.not_mem_nil, or_false] at hp
  rcases hp with rfl | rfl | rfl | rfl | rfl <;>
    exact ⟨rfl, rfl, (season_bounds _ r m hm).1, (season_bounds _ r m hm).2,
      fun hle => season_nonpos _ r m hle⟩

/-- Witness for C2 at the spec's end-to-end example: 100 identical entries
with 5000 races played, 3000 season races and 25 members give a rank-1
season requirement of ceil((5000 - 3000) / 25) = 80. -/
theorem season_dailyMemberRaces_eq_ceil_witness :
    ∃ info, seasonTopInfo? (List.replicate 100 ⟨5000, 90000⟩) 25 3000 = some info ∧
      info.top1.dailyMemberRaces = 80 := by
  obtain ⟨info, hi, hall⟩ :=
    season_dailyMemberRaces_eq_ceil (List.replicate 100 ⟨5000, 90000⟩) 25 3000
      (by decide) (by decide)
  refine ⟨info, hi, ?_⟩
  have h := (hall (0, info.top1) (by simp)).2.1
  have hgd : (List.replicate 100 (⟨5000, 90000⟩ : Score)).getD 0 ⟨0, 0⟩ = ⟨5000, 90000⟩ := by
    decide
  rw [h, hgd]
  norm_num

/-- C3: Cache round-trip with a shared clock: a successful fetch at time t
writes the payload stamped with t; a later operation returns the identical
payload without a network request while now minus the stamp is strictly
below 20 minutes, and once 20 minutes or more have elapsed the entry
behaves as absent — the operation falls through to a network fetch. -/
theorem cache_round_trip {α : Type} (payload : α) (t now : Int) (resp : Response α) :
    (resp.ok = true →
       fetchCached (α := α) .absent t resp =
         { result := .ok resp.body
           newStored := .entry { data := resp.body, timestamp := t }
           requests := 1 }) ∧
    (now - t < freshnessWindow →
       fetchCached (.entry { data := payload, timestamp := t }) now resp =
         { result := .ok payload
           newStored := .entry { data := payload, timestamp := t }
           requests := 0 }) ∧
    (freshnessWindow ≤ now - t →
       (fetchCached (.entry { data := payload, timestamp := t }) now resp).requests = 1 ∧
       (resp.ok = true →
          fetchCached (.entry { data := payload, timestamp := t }) now resp =
            { result := .ok resp.body
              newStored := .entry { data := resp.body, timestamp := now }
              requests := 1 })) := by
  refine ⟨?_, ?_, ?_⟩
  · intro hok
    simp [fetchCached, hok]
  · intro hlt
    simp [fetchCached, hlt]
  · intro hge
    have hnl : ¬(now - t < freshnessWindow) := not_lt.mpr hge
    constructor
    · by_cases hok : resp.ok <;> simp [fetchCached, hnl, hok]
    · intro hok
      simp [fetchCached, hnl, hok]

/-- Witness for C3: payload 42 cached at time 0 is served back verbatim at
time 5 with no request; at time 1200000 (exactly 20 minutes) the entry is
ignored and one request goes out; a successful fetch at time 0 stores the
body stamped 0. -/
theorem cache_round_trip_witness :
    fetchCached (α := Nat) (.entry { data := 42, timestamp := 0 }) 5 ⟨true, 200, 7⟩ =
      { result := .ok 42, newStored := .entry { data := 42, timestamp := 0 }
        requests := 0 } ∧
    (fetchCached (α := Nat) (.entry { data := 42, timestamp := 0 }) 1200000
        ⟨true, 200, 7⟩).requests = 1 ∧
    fetchCached (α := Nat) .absent 0 ⟨true, 200, 7⟩ =
      { result := .ok 7, newStored := .entry { data := 7, timestamp := 0 }
        requests := 1 } :=
  ⟨(cache_round_trip 42 0 5 ⟨true, 200, 7⟩).2.1 (by decide),
   ((cache_round_trip 42 0 1200000 ⟨true, 200, 7⟩).2.2 (by decide)).1,
   (cache_round_trip (α := Nat) 42 0 0 ⟨true, 200, 7⟩).1 rfl⟩

/-- C4 counterexample: with malformed cached text and a healthy network,
fetchTeamStats throws the parse error and issues no network request — not
at all like an absent entry, for which it would have fetched and succeeded. -/
theorem malformed_cache_throws :
    (fetchTeamStats .malformed 0 ⟨true, 200, ⟨⟨⟨5⟩, []⟩⟩⟩).result = .error .parseError ∧
    (fetchTeamStats .malformed 0 ⟨true, 200, ⟨⟨⟨5⟩, []⟩⟩⟩).requests = 0 ∧
    fetchTeamStats .malformed 0 ⟨true, 200, ⟨⟨⟨5⟩, []⟩⟩⟩ ≠
      fetchTeamStats .absent 0 ⟨true, 200, ⟨⟨⟨5⟩, []⟩⟩⟩ := by
  refine ⟨rfl, rfl, ?_⟩
  decide

/-- C4 (amended): malformed stored cache data makes every fetch operation
throw: the JSON.parse error is logged and rethrown, no network request is
issued and the cell is left as it was — a malformed entry is not treated
as an absent one. -/
theorem malformed_cache_rethrows (now : Int) (tresp : Response TeamPayload)
    (wresp sresp : Response (List RawScore)) :
    fetchTeamStats .malformed now tresp =
      { result := .error .parseError, newStored := .malformed, requests := 0 } ∧
    getWeeklyLeaderBoardInfoStats .malformed now wresp =
      { result := .error .parseError, newStored := .malformed, requests := 0 } ∧
    getSeasonLeaderBoardInfoStats .malformed now sresp =
      { result := .error .parseError, newStored := .malformed, requests := 0 } :=
  ⟨rfl, rfl, rfl⟩

/-- C5: On every cache miss exactly one network request is issued; a
non-success response status makes the operation throw a FetchError carrying
that status, with no retry; the top-level caller catches it, logs, and
proceeds with memberCount and seasonRaces left undefined. -/
theorem single_fetch_and_error_propagation {α : Type} (stored : Stored α)
    (now : Int) (resp : Response α) (hmiss : isCacheMiss stored now = true) :
    (fetchCached stored now resp).requests = 1 ∧
    (resp.ok = false →
      (fetchCached stored now resp).result = .error (.fetchError resp.status)) ∧
    (∀ tstored (tnow : Int) (tresp : Response TeamPayload),
      isCacheMiss tstored tnow = true → tresp.ok = false →
      teamVars (fetchTeamStats tstored tnow tresp).result = (none, none)) := by
  have key : ∀ {β : Type} (st : Stored β) (n : Int) (r : Response β),
      isCacheMiss st n = true →
        (fetchCached st n r).requests = 1 ∧
        (r.ok = false → (fetchCached st n r).result = .error (.fetchError r.status)) := by
    intro β st n r hm
    cases st with
    | absent =>
        constructor
        · by_cases hok : r.ok <;> simp [fetchCached, hok]
        · intro hok
          simp [fetchCached, hok]
    | malformed => simp [isCacheMiss] at hm
    | entry e =>
        have hnl : ¬(n - e.timestamp < freshnessWindow) := by
          simp [isCacheMiss] at hm
          omega
        constructor
        · by_cases hok : r.ok <;> simp [fetchCached, hnl, hok]
        · intro hok
          simp [fetchCached, hnl, hok]
  refine ⟨(key stored now resp hmiss).1, (key stored now resp hmiss).2, ?_⟩
  intro tstored tnow tresp hm2 hok
  have h := (key tstored tnow tresp hm2).2 hok
  unfold fetchTeamStats
  rw [h]
  rfl

/-- Witness for C5: an absent cache and a 500 response give one request, a
FetchError carrying 500, and undefined team variables downstream. -/
theorem single_fetch_and_error_propagation_witness :
    (fetchCached (α := Nat) .absent 0 ⟨false, 500, 7⟩).requests = 1 ∧
    (fetchCached (α := Nat) .absent 0 ⟨false, 500, 7⟩).result =
      .error (.fetchError 500) ∧
    teamVars (fetchTeamStats .absent 0 ⟨false, 500, ⟨⟨⟨5⟩, []⟩⟩⟩).result =
      (none, none) := by
  obtain ⟨h1, h2, h3⟩ :=
    single_fetch_and_error_propagation (α := Nat) .absent 0 ⟨false, 500, 7⟩ (by decide)
  exact ⟨h1, h2 rfl, h3 .absent 0 ⟨false, 500, ⟨⟨⟨5⟩, []⟩⟩⟩ (by decide) rfl⟩

/-- C6: For each period, the leaderboard fetch operation returns, in order,
one played/points projection per raw ranked entry — hence at most 100 when
the ranked list has at most 100 — the projection at each position copying
exactly the played and points fields and discarding every other field. -/
theorem fetchLeaderboard_projects (stored : Stored (List RawScore)) (now : Int)
    (resp : Response (List RawScore)) (out : List Score)
    (h : fetchLeaderboard stored now resp = .ok out) :
    ∃ raw : List RawScore, out = projectScores raw ∧
      out.length = raw.length ∧
      (raw.length ≤ 100 → out.length ≤ 100) ∧
      (∀ i, i < raw.length →
        out.getD i ⟨0, 0⟩ =
          { played := (raw.getD i ⟨0, 0, "", 0⟩).played
            points := (raw.getD i ⟨0, 0, "", 0⟩).points }) ∧
      (∀ r1 r2 : RawScore, r1.played = r2.played → r1.points = r2.points →
        projectScores [r1] = projectScores [r2]) := by
  obtain ⟨raw, hres, hout⟩ :
      ∃ raw, (fetchCached stored now resp).result = .ok raw ∧
        out = projectScores raw := by
    unfold fetchLeaderboard at h
    cases hres : (fetchCached stored now resp).result with
    | ok raw =>
        rw [hres] at h
        simp only [Except.map] at h
        cases h
        exact ⟨raw, rfl, rfl⟩
    | error e =>
        rw [hres] at h
        simp [Except.map] at h
  subst hout
  refine ⟨raw, rfl, ?_, ?_, ?_, ?_⟩
  · simp [projectScores]
  · intro h100
    simpa [projectScores] using h100
  · intro i hi
    unfold projectScores
    rw [List.getD_eq_getElem?_getD, List.getD_eq_getElem?_getD, List.getElem?_map,
      List.getElem?_eq_getElem hi]
    rfl
  · intro r1 r2 hp hq
    simp [projectScores, hp, hq]

/-- Witness for C6: one raw entry with extra fields projects to its
played/points pair. -/
theorem fetchLeaderboard_projects_witness :
    ∃ raw : List RawScore,
      [(⟨700, 50000⟩ : Score)] = projectScores raw ∧
      [(⟨700, 50000⟩ : Score)].length = raw.length := by
  obtain ⟨raw, h1, h2, _⟩ :=
    fetchLeaderboard_projects .absent 0 ⟨true, 200, [⟨700, 50000, "NT", 4⟩]⟩
      [⟨700, 50000⟩] rfl
  exact ⟨raw, h1, h2⟩

/-- C7: When the persisted session's team tag differs from the tag in the
page URL, the script takes no action at all: no fetch is issued, all three
cache cells are left unchanged, and nothing is inserted into the page. -/
theorem foreign_team_page_no_action (env : Env) (h : env.userTag ≠ env.pageTag) :
    runScript env =
      { teamStored := env.teamStored
        weeklyStored := env.weeklyStored
        seasonStored := env.seasonStored
        fetches := 0
        inserted := false } := by
  unfold runScript
  rw [if_neg h]

/-- Witness for C7: a viewer from team ABC on team XYZ's page leaves the
world unchanged. -/
theorem foreign_team_page_no_action_witness :
    runScript
      { userTag := "ABC", pageTag := "XYZ", teamStored := .absent
        weeklyStored := .absent, seasonStored := .absent, now := 0
        teamResp := ⟨true, 200, ⟨⟨⟨5⟩, []⟩⟩⟩, weeklyResp := ⟨true, 200, []⟩
        seasonResp := ⟨true, 200, []⟩, anchorsPresent := true } =
      { teamStored := .absent, weeklyStored := .absent, seasonStored := .absent
        fetches := 0, inserted := false } :=
  foreign_team_page_no_action _ (by decide)

/-- C8: Starting from either rendered mode, clicking the other mode's
control and then clicking back restores the table body to its original
content and both controls to their original class state; each such click
swaps the active and inactive visual state of both controls and fully
replaces the table body with the newly selected mode's requirement rows. -/
theorem toggle_round_trip (wInfo sInfo : TopRequirements) (m r : Nat)
    (st : TooltipState) :
    (seasonClick sInfo m r st).tableBody = createTopTeamRequirementsTableBody sInfo ∧
    (seasonClick sInfo m r st).weeklyButton = toggleClasses st.weeklyButton ∧
    (seasonClick sInfo m r st).seasonButton = toggleClasses st.seasonButton ∧
    (st.tableBody = createTopTeamRequirementsTableBody wInfo →
      weeklyClick wInfo m (seasonClick sInfo m r st) =
        { st with footer := weeklyFooterText m }) ∧
    (st.tableBody = createTopTeamRequirementsTableBody sInfo →
      seasonClick sInfo m r (weeklyClick wInfo m st) =
        { st with footer := seasonFooterText m r }) := by
  refine ⟨rfl, rfl, rfl, ?_, ?_⟩
  · intro hb
    simp [weeklyClick, seasonClick, toggleClasses_involutive, ← hb]
  · intro hb
    simp [weeklyClick, seasonClick, toggleClasses_involutive, ← hb]

/-- Witness for C8: with weekly rendered, clicking Season then Weekly
restores the sample tooltip state (up to the rewritten footer text). -/
theorem toggle_round_trip_witness :
    weeklyClick sampleWeeklyInfo 10 (seasonClick sampleSeasonInfo 10 3000 sampleTooltip) =
      { sampleTooltip with footer := weeklyFooterText 10 } :=
  (toggle_round_trip sampleWeeklyInfo sampleSeasonInfo 10 3000 sampleTooltip).2.2.2.1 rfl

/-- C9: Each click handler unconditionally toggles both controls' class
pairs and replaces the table body with its own mode's rows — also when its
control is already active, in which case the same content is re-rendered
while the visual states of the two controls are inverted. -/
theorem click_handlers_unconditional (wInfo sInfo : TopRequirements) (m r : Nat)
    (st : TooltipState) :
    weeklyClick wInfo m st =
      { weeklyButton := toggleClasses st.weeklyButton
        seasonButton := toggleClasses st.seasonButton
        tableBody := createTopTeamRequirementsTableBody wInfo
        footer := weeklyFooterText m } ∧
    seasonClick sInfo m r st =
      { weeklyButton := toggleClasses st.weeklyButton
        seasonButton := toggleClasses st.seasonButton
        tableBody := createTopTeamRequirementsTableBody sInfo
        footer := seasonFooterText m r } ∧
    toggleClasses st.weeklyButton ≠ st.weeklyButton ∧
    toggleClasses st.seasonButton ≠ st.seasonButton ∧
    (st.tableBody = createTopTeamRequirementsTableBody wInfo →
      (weeklyClick wInfo m st).tableBody = st.tableBody) := by
  refine ⟨rfl, rfl, ?_, ?_, ?_⟩
  · intro heq
    exact Bool.not_ne_self st.weeklyButton.linkH (congrArg ButtonState.linkH heq)
  · intro heq
    exact Bool.not_ne_self st.seasonButton.linkH (congrArg ButtonState.linkH heq)
  · intro hb
    exact hb.symm

/-- Witness for C9: clicking the already-active Weekly control on the
sample tooltip re-renders the same body while inverting the class states. -/
theorem click_handlers_unconditional_witness :
    (weeklyClick sampleWeeklyInfo 10 sampleTooltip).tableBody = sampleTooltip.tableBody ∧
    toggleClasses sampleTooltip.weeklyButton ≠ sampleTooltip.weeklyButton := by
  obtain ⟨_, _, hne, _, himp⟩ :=
    click_handlers_unconditional sampleWeeklyInfo sampleSeasonInfo 10 3000 sampleTooltip
  exact ⟨himp rfl, hne⟩

/-- Completion of the weekly milestone calculation is equivalent to the
leaderboard having at least 100 entries. -/
theorem weeklyTopInfo_isSome (lb : List Score) (m : Nat) :
    (weeklyTopInfo? lb m).isSome ↔ 100 ≤ lb.length := by
  constructor
  · intro h
    by_contra hlen
    push_neg at hlen
    have h99 : lb[99]? = none := List.getElem?_eq_none (by omega)
    unfold weeklyTopInfo? at h
    rw [h99] at h
    rcases lb[0]? with _ | a <;> rcases lb[2]? with _ | b <;>
      rcases lb[9]? with _ | c <;> rcases lb[49]? with _ | d <;> simp at h
  · intro hlen
    have h0 := getD_of_lt lb 0 ⟨0, 0⟩ (by omega)
    have h2 := getD_of_lt lb 2 ⟨0, 0⟩ (by omega)
    have h9 := getD_of_lt lb 9 ⟨0, 0⟩ (by omega)
    have h49 := getD_of_lt lb 49 ⟨0, 0⟩ (by omega)
    have h99 := getD_of_lt lb 99 ⟨0, 0⟩ (by omega)
    unfold weeklyTopInfo?
    rw [h0, h2, h9, h49, h99]
    rfl

/-- Completion of the season milestone calculation is equivalent to the
leaderboard having at least 100 entries. -/
theorem seasonTopInfo_isSome (lb : List Score) (m r : Nat) :
    (seasonTopInfo? lb m r).isSome ↔ 100 ≤ lb.length := by
  constructor
  · intro h
    by_contra hlen
    push_neg at hlen
    have h99 : lb[99]? = none := List.getElem?_eq_none (by omega)
    unfold seasonTopInfo? at h
    rw [h99] at h
    rcases lb[0]? with _ | a <;> rcases lb[2]? with _ | b <;>
      rcases lb[9]? with _ | c <;> rcases lb[49]? with _ | d <;> simp at h
  · intro hlen
    have h0 := getD_of_lt lb 0 ⟨0, 0⟩ (by omega)
    have h2 := getD_of_lt lb 2 ⟨0, 0⟩ (by omega)
    have h9 := getD_of_lt lb 9 ⟨0, 0⟩ (by omega)
    have h49 := getD_of_lt lb 49 ⟨0, 0⟩ (by omega)
    have h99 := getD_of_lt lb 99 ⟨0, 0⟩ (by omega)
    unfold seasonTopInfo?
    rw [h0, h2, h9, h49, h99]
    rfl

/-- C10: The milestone calculation step is partial: it completes — and
widget construction reaches rendering — exactly when the leaderboard
sequences have at least 100 entries; with fewer, a milestone index among
0, 2, 9, 49, 99 is absent, the requirement loop's dereference throws,
and widget construction aborts before any rendering. -/
theorem milestone_calc_partiality (wlb slb : List Score) (m r : Nat) :
    ((weeklyTopInfo? wlb m).isSome ↔ 100 ≤ wlb.length) ∧
    ((seasonTopInfo? slb m r).isSome ↔ 100 ≤ slb.length) ∧
    ((buildWidget? wlb slb m r).isSome ↔ 100 ≤ wlb.length ∧ 100 ≤ slb.length) := by
  have hw := weeklyTopInfo_isSome wlb m
  have hs := seasonTopInfo_isSome slb m r
  refine ⟨hw, hs, ?_, ?_⟩
  · intro h
    unfold buildWidget? at h
    rcases hww : weeklyTopInfo? wlb m with _ | wi
    · rw [hww] at h
      simp at h
    · rw [hww] at h
      rcases hss : seasonTopInfo? slb m r with _ | si
      · rw [hss] at h
        simp at h
      · exact ⟨hw.mp (by rw [hww]; rfl), hs.mp (by rw [hss]; rfl)⟩
  · rintro ⟨h1, h2⟩
    obtain ⟨wi, hww⟩ := Option.isSome_iff_exists.mp (hw.mpr h1)
    obtain ⟨si, hss⟩ := Option.isSome_iff_exists.mp (hs.mpr h2)
    unfold buildWidget?
    rw [hww, hss]
    rfl

end NitroType
